import Mathlib

/-! Shallow embedding of `src/app.py`, a Streamlit app comparing a child's face
against a father's and a mother's photo via an external face-verification
library (`DeepFace.verify`).

Modelling conventions:
* image distances are rationals (`ℚ`);
* uploaded files and decoded pixel arrays are opaque identifiers (`ℕ`);
* the external library and the image decoder are an `Oracle` of functions
  that may raise a Python exception (`PyErr`), modelled with `Except`;
* Streamlit output effects (chart, success message, inline errors) are
  recorded explicitly in result structures, together with the trace of
  `DeepFace.verify` invocations.
-/

/-- A Python exception: either a `ValueError` (the one exception class the
app catches) or any other exception. -/
inductive PyErr where
  | valueError (msg : String)
  | otherError (msg : String)
deriving DecidableEq, Repr

/-- The part of a `DeepFace.verify` result the app looks at: the `distance`
field (`VerificationResult` in the spec's data model). -/
structure VerificationResult where
  distance : ℚ
deriving DecidableEq, Repr

/-- One invocation of `DeepFace.verify`: the arguments the app passes
(decoded images, model name, detector backend, distance metric),
mirroring lines 120-126 of `app.py`. -/
structure VerifyCall where
  img1_path : ℕ
  img2_path : ℕ
  model_name : String
  detector_backend : String
  distance_metric : String
deriving DecidableEq, Repr

/-- The external world: `load_img` (PIL decode of an uploaded file to a
pixel array) and `DeepFace.verify`, both of which may raise. -/
structure Oracle where
  load_img : ℕ → Except PyErr ℕ
  verify : VerifyCall → Except PyErr VerificationResult

/-- The chart data built by `charts` in `app.py` (lines 81-92): the
`data` dictionary of parallel lists fed to the bar chart. -/
structure ChartData where
  parent : List String
  feature : List String
  similarity : List ℚ
deriving DecidableEq, Repr

/-- `charts` from `app.py` (lines 81-92), restricted to the chart data it
computes.  Note the source's cosine branch: `-1 + distance` for the
father but `1 - distance` for the mother. -/
def charts (paternal_result maternal_result : VerificationResult)
    (distance_metrics : String) : ChartData :=
  { parent := ["Father", "Mother"]
    feature := ["face", "face"]
    similarity :=
      [ if distance_metrics = "cosine" then -1 + paternal_result.distance
        else 1 / (1 + paternal_result.distance),
        if distance_metrics = "cosine" then 1 - maternal_result.distance
        else 1 / (1 + maternal_result.distance) ] }

/-- The non-cosine distance-to-similarity transform used in `charts`:
`1 / (1 + d)`. -/
def noncosineSimilarity (d : ℚ) : ℚ := 1 / (1 + d)

/-- The inline error message shown by `run_deepface` when a `ValueError`
is caught (line 129 of `app.py`). -/
def uploadErrMsg : String := "Something wrong with either the pictures. Upload them again"

/-- The body of the `try` block of `run_deepface` (lines 120-127):
decode `img1`, decode `img2`, then call `DeepFace.verify` with the fixed
detector backend `"mtcnn"`.  Returns the trace of verify invocations made
together with the outcome (a result, or the exception raised). -/
def try_body (o : Oracle) (img1 img2 : ℕ) (model_name distance_metrics : String) :
    List VerifyCall × Except PyErr VerificationResult :=
  match o.load_img img1 with
  | Except.error e => ([], Except.error e)
  | Except.ok a1 =>
    match o.load_img img2 with
    | Except.error e => ([], Except.error e)
    | Except.ok a2 =>
      let call : VerifyCall :=
        { img1_path := a1
          img2_path := a2
          model_name := model_name
          detector_backend := "mtcnn"
          distance_metric := distance_metrics }
      ([call], o.verify call)

/-- The observable outcome of `run_deepface`: verify invocations made,
inline errors displayed, and the returned value — `Except.ok (some r)` for a
normal return, `Except.ok none` for the `return None` of the handler, and
`Except.error e` for an exception propagating out of the function. -/
structure RunOut where
  calls : List VerifyCall
  errs : List String
  ret : Except PyErr (Option VerificationResult)
deriving Repr

/-- `run_deepface` from `app.py` (lines 106-130): run the try body; a
`ValueError` is caught, displays `uploadErrMsg` and returns `None`; any
other exception propagates. -/
def run_deepface (o : Oracle) (img1 img2 : ℕ) (model_name distance_metrics : String) :
    RunOut :=
  match (try_body o img1 img2 model_name distance_metrics).2 with
  | Except.ok result =>
      { calls := (try_body o img1 img2 model_name distance_metrics).1
        errs := []
        ret := Except.ok (some result) }
  | Except.error (PyErr.valueError _) =>
      { calls := (try_body o img1 img2 model_name distance_metrics).1
        errs := [uploadErrMsg]
        ret := Except.ok none }
  | Except.error (PyErr.otherError m) =>
      { calls := (try_body o img1 img2 model_name distance_metrics).1
        errs := []
        ret := Except.error (PyErr.otherError m) }

/-- The success message announcing the mother (line 169 of `app.py`). -/
def motherMsg : String := "The child looks more like mother."

/-- The success message announcing the father (line 171 of `app.py`). -/
def fatherMsg : String := "The child looks more like father."

/-- The observable outcome of `compare_image`: verify invocations, inline
errors, the chart rendered (if any), the success message announced (if
any), and the returned pair of distances (if any). -/
structure CompareOut where
  calls : List VerifyCall
  errs : List String
  chart : Option ChartData
  message : Option String
  ret : Option (ℚ × ℚ)
deriving Repr

/-- `compare_image` from `app.py` (lines 133-173): run `run_deepface` on
(father, child), then on (mother, child); if both results are present,
render the chart, announce the parent with the smaller distance (strict
`<` on the mother's distance, ties to the father) and return
`(maternal distance, paternal distance)`; otherwise display nothing and
return `None`.  An uncaught exception in either call propagates. -/
def compare_image (o : Oracle) (img_father img_mother img_child : ℕ)
    (distance_metrics : String) (model_name : String) :
    Except PyErr CompareOut :=
  let r1 := run_deepface o img_father img_child model_name distance_metrics
  match r1.ret with
  | Except.error e => Except.error e
  | Except.ok paternal_result =>
    let r2 := run_deepface o img_mother img_child model_name distance_metrics
    match r2.ret with
    | Except.error e => Except.error e
    | Except.ok maternal_result =>
      match paternal_result, maternal_result with
      | some p, some m =>
          Except.ok
            { calls := r1.calls ++ r2.calls
              errs := r1.errs ++ r2.errs
              chart := some (charts p m distance_metrics)
              message := some (if m.distance < p.distance then motherMsg else fatherMsg)
              ret := some (m.distance, p.distance) }
      | _, _ =>
          Except.ok
            { calls := r1.calls ++ r2.calls
              errs := r1.errs ++ r2.errs
              chart := none
              message := none
              ret := none }

/-- The top-level guard of `app.py` (lines 214-221): `compare_image` is
invoked only when all three uploaded images are present (not `None`). -/
def page_run (o : Oracle) (img_father img_mother img_child : Option ℕ)
    (distance_metrics model_name : String) : Option (Except PyErr CompareOut) :=
  match img_father, img_mother, img_child with
  | some f, some m, some c => some (compare_image o f m c distance_metrics model_name)
  | _, _, _ => none

/-- An oracle where decoding is the identity and `verify` succeeds,
returning `p` for the pair whose first image is `0` (the father) and `m`
otherwise: the happy path with prescribed distances. -/
def okOracle (p m : VerificationResult) : Oracle :=
  { load_img := fun n => Except.ok n
    verify := fun call => Except.ok (if call.img1_path = 0 then p else m) }

/-- An oracle whose image decoder raises `ValueError` on every file:
decoding fails before `DeepFace.verify` is ever reached. -/
def badLoadOracle : Oracle :=
  { load_img := fun _ => Except.error (PyErr.valueError "broken png")
    verify := fun _ => Except.ok { distance := 0 } }

/-- An oracle where decoding succeeds but `DeepFace.verify` raises an
exception that is not a `ValueError`. -/
def badVerifyOracle : Oracle :=
  { load_img := fun n => Except.ok n
    verify := fun _ => Except.error (PyErr.otherError "runtime failure") }

/-- Whether the outcome of the try body is a raised `ValueError`. -/
def isValueError : Except PyErr VerificationResult → Bool
  | Except.error (PyErr.valueError _) => true
  | _ => false

/-- A `compare_image` outcome that displays nothing: no chart, no success
message, no returned pair.  A propagating exception displays nothing. -/
def noDisplay : Except PyErr CompareOut → Prop
  | Except.ok out => out.chart = none ∧ out.message = none ∧ out.ret = none
  | Except.error _ => True

/-- The verify-call trace of `run_deepface` is the trace of its try body,
whatever the outcome. -/
theorem run_deepface_calls_eq (o : Oracle) (i1 i2 : ℕ) (mn dm : String) :
    (run_deepface o i1 i2 mn dm).calls = (try_body o i1 i2 mn dm).1 := by
  unfold run_deepface
  split <;> rfl

/-- C1: the claim states that for metric `"cosine"` the chart computes
`1 - distance` for both parents.  The code disagrees: at paternal and
maternal distance `3/10` the father's similarity is `-1 + 3/10 = -7/10`
(not `1 - 3/10 = 7/10`), while the mother's is `7/10`.  This evaluates the
code at that failing input. -/
theorem charts_cosine_asymmetric :
    (charts { distance := 3/10 } { distance := 3/10 } "cosine").similarity
      = [-(7/10 : ℚ), (7/10 : ℚ)] := by
  norm_num [charts]

/-- C2: with both verification results present (non-negative distances),
`compare_image` announces the mother exactly when the mother's distance is
strictly smaller than the father's, and announces the father otherwise —
in particular on ties. -/
theorem compare_image_decision (p m : VerificationResult)
    (hp : 0 ≤ p.distance) (hm : 0 ≤ m.distance) :
    (Except.map CompareOut.message (compare_image (okOracle p m) 0 1 2 "cosine" "Facenet")
        = Except.ok (some motherMsg) ↔ m.distance < p.distance) ∧
    (Except.map CompareOut.message (compare_image (okOracle p m) 0 1 2 "cosine" "Facenet")
        = Except.ok (some fatherMsg) ↔ ¬ m.distance < p.distance) := by
  have hcc : Except.map CompareOut.message (compare_image (okOracle p m) 0 1 2 "cosine" "Facenet")
      = Except.ok (some (if m.distance < p.distance then motherMsg else fatherMsg)) := rfl
  have hne : motherMsg ≠ fatherMsg := by decide
  rw [hcc]
  by_cases hlt : m.distance < p.distance
  · rw [if_pos hlt]
    simp [hlt, hne]
  · rw [if_neg hlt]
    simp [hlt, Ne.symm hne]

/-- C2 witness: at paternal distance `3/10` and maternal distance `1/4`
the announced parent is the mother. -/
theorem compare_image_decision_witness :
    Except.map CompareOut.message
        (compare_image (okOracle { distance := 3/10 } { distance := 1/4 }) 0 1 2 "cosine" "Facenet")
      = Except.ok (some motherMsg) :=
  (compare_image_decision { distance := 3/10 } { distance := 1/4 }
      (by norm_num) (by norm_num)).1.mpr (by norm_num)

/-- C3: for any metric other than `"cosine"`, the chart computes the
similarity `1 / (1 + distance)` for each parent. -/
theorem charts_noncosine (p m : VerificationResult) (dm : String) (h : dm ≠ "cosine") :
    (charts p m dm).similarity = [1 / (1 + p.distance), 1 / (1 + m.distance)] := by
  simp [charts, h]

/-- C3 witness: metric `"euclidean"` with distances `1` and `3`. -/
theorem charts_noncosine_witness :
    (charts { distance := 1 } { distance := 3 } "euclidean").similarity
      = [(1/2 : ℚ), (1/4 : ℚ)] := by
  rw [charts_noncosine { distance := 1 } { distance := 3 } "euclidean" (by decide)]
  norm_num

/-- C4: the non-cosine similarity transform `1 / (1 + d)` — the one the
chart applies for non-cosine metrics — lies in `(0, 1]` for `d ≥ 0` and is
strictly decreasing. -/
theorem noncosineSimilarity_range_strictAnti (d d1 d2 : ℚ)
    (hd : 0 ≤ d) (h1 : 0 ≤ d1) (h2 : 0 ≤ d2) (hlt : d1 < d2) :
    (charts { distance := d } { distance := d } "euclidean").similarity
        = [noncosineSimilarity d, noncosineSimilarity d] ∧
      0 < noncosineSimilarity d ∧ noncosineSimilarity d ≤ 1 ∧
      noncosineSimilarity d2 < noncosineSimilarity d1 := by
  refine ⟨by simp [charts, noncosineSimilarity], ?_, ?_, ?_⟩
  · exact one_div_pos.mpr (by linarith)
  · rw [noncosineSimilarity, div_le_one (by linarith)]
    linarith
  · rw [noncosineSimilarity, noncosineSimilarity,
      div_lt_div_iff₀ (by linarith) (by linarith)]
    linarith

/-- C4 witness: at `d = 0` the similarity is `1` (the top of the range),
and it decreases from `d1 = 0` to `d2 = 1`. -/
theorem noncosineSimilarity_range_strictAnti_witness :
    (charts { distance := 0 } { distance := 0 } "euclidean").similarity
        = [noncosineSimilarity 0, noncosineSimilarity 0] ∧
      0 < noncosineSimilarity 0 ∧ noncosineSimilarity 0 ≤ 1 ∧
      noncosineSimilarity 1 < noncosineSimilarity 0 :=
  noncosineSimilarity_range_strictAnti 0 0 1 (by norm_num) (by norm_num)
    (by norm_num) (by norm_num)

/-- C5: if either verification call comes back absent (`None`), then
`compare_image` renders no chart, announces no winner, and returns no
pair: partial results are never displayed. -/
theorem compare_image_no_partial (o : Oracle) (f m c : ℕ) (dm mn : String)
    (h : (run_deepface o f c mn dm).ret = Except.ok none ∨
         (run_deepface o m c mn dm).ret = Except.ok none) :
    noDisplay (compare_image o f m c dm mn) := by
  simp only [compare_image]
  rcases h with h | h
  · rw [h]
    cases h2 : (run_deepface o m c mn dm).ret with
    | error e => exact trivial
    | ok mr => cases mr with
      | none => exact ⟨rfl, rfl, rfl⟩
      | some mv => exact ⟨rfl, rfl, rfl⟩
  · cases h1 : (run_deepface o f c mn dm).ret with
    | error e => exact trivial
    | ok pr =>
      rw [h]
      cases pr with
      | none => exact ⟨rfl, rfl, rfl⟩
      | some pv => exact ⟨rfl, rfl, rfl⟩

/-- C5 witness: with a decoder that raises `ValueError`, the father's
verification is absent and nothing is displayed. -/
theorem compare_image_no_partial_witness :
    ((run_deepface badLoadOracle 0 2 "Facenet" "cosine").ret = Except.ok none ∨
     (run_deepface badLoadOracle 1 2 "Facenet" "cosine").ret = Except.ok none) ∧
    noDisplay (compare_image badLoadOracle 0 1 2 "cosine" "Facenet") :=
  ⟨Or.inl rfl, compare_image_no_partial badLoadOracle 0 1 2 "cosine" "Facenet" (Or.inl rfl)⟩

/-- C6 counterexample: the claim says an absent result is returned exactly
when the verification primitive raises `ValueError`, and that image-decode
failures are never caught.  But the `try` block wraps the decoding too:
with a decoder that raises `ValueError`, `run_deepface` returns the absent
result and shows the inline error even though `DeepFace.verify` was never
invoked (the call trace is empty). -/
theorem run_deepface_absent_without_verify :
    (run_deepface badLoadOracle 0 2 "Facenet" "cosine").ret = Except.ok none ∧
    (run_deepface badLoadOracle 0 2 "Facenet" "cosine").errs = [uploadErrMsg] ∧
    (run_deepface badLoadOracle 0 2 "Facenet" "cosine").calls = [] :=
  ⟨rfl, rfl, rfl⟩

/-- C6 amended: `run_deepface` returns the absent result together with the
inline error message exactly when the try body — image decoding or the
verification primitive — raises a `ValueError`; when no `ValueError` is
raised, the body's outcome (a result, or any other exception) passes
through the wrapper unchanged. -/
theorem run_deepface_catches_exactly_valueError (o : Oracle) (i1 i2 : ℕ) (mn dm : String) :
    (((run_deepface o i1 i2 mn dm).ret = Except.ok none ∧
      (run_deepface o i1 i2 mn dm).errs = [uploadErrMsg]) ↔
        isValueError (try_body o i1 i2 mn dm).2 = true) ∧
    (isValueError (try_body o i1 i2 mn dm).2 = false →
      (run_deepface o i1 i2 mn dm).ret = Except.map some (try_body o i1 i2 mn dm).2) := by
  cases h : (try_body o i1 i2 mn dm).2 with
  | ok r => simp [run_deepface, isValueError, h, Except.map]
  | error e => cases e with
    | valueError msg => simp [run_deepface, isValueError, h]
    | otherError msg => simp [run_deepface, isValueError, h, Except.map]

/-- C6 amended witness: with a primitive raising a non-`ValueError`
exception, the exception propagates out of `run_deepface` unchanged. -/
theorem run_deepface_catches_exactly_valueError_witness :
    isValueError (try_body badVerifyOracle 0 2 "Facenet" "cosine").2 = false ∧
    (run_deepface badVerifyOracle 0 2 "Facenet" "cosine").ret
      = Except.map some (try_body badVerifyOracle 0 2 "Facenet" "cosine").2 :=
  ⟨rfl, (run_deepface_catches_exactly_valueError badVerifyOracle 0 2 "Facenet" "cosine").2 rfl⟩

/-- C7: when decoding and verification succeed, `compare_image` invokes
the verification primitive exactly twice — first on (father, child), then
on (mother, child) — with the identical model name and distance metric in
both invocations (and the fixed `"mtcnn"` backend). -/
theorem compare_image_two_calls (o : Oracle) (dec : ℕ → ℕ) (vr : VerifyCall → VerificationResult)
    (hload : ∀ i, o.load_img i = Except.ok (dec i))
    (hver : ∀ call, o.verify call = Except.ok (vr call))
    (f m c : ℕ) (dm mn : String) :
    Except.map CompareOut.calls (compare_image o f m c dm mn) =
      Except.ok
        [ { img1_path := dec f, img2_path := dec c, model_name := mn,
            detector_backend := "mtcnn", distance_metric := dm },
          { img1_path := dec m, img2_path := dec c, model_name := mn,
            detector_backend := "mtcnn", distance_metric := dm } ] := by
  simp [compare_image, run_deepface, try_body, hload, hver, Except.map]

/-- C7 witness: on the happy-path oracle the two calls are (0, 2) then
(1, 2), both with model `"Facenet"`, metric `"cosine"` and backend
`"mtcnn"`. -/
theorem compare_image_two_calls_witness :
    Except.map CompareOut.calls
        (compare_image (okOracle { distance := 1 } { distance := 2 }) 0 1 2 "cosine" "Facenet") =
      Except.ok
        [ { img1_path := 0, img2_path := 2, model_name := "Facenet",
            detector_backend := "mtcnn", distance_metric := "cosine" },
          { img1_path := 1, img2_path := 2, model_name := "Facenet",
            detector_backend := "mtcnn", distance_metric := "cosine" } ] :=
  compare_image_two_calls (okOracle { distance := 1 } { distance := 2 })
    (fun n => n)
    (fun call => if call.img1_path = 0 then { distance := 1 } else { distance := 2 })
    (fun _ => rfl) (fun _ => rfl) 0 1 2 "cosine" "Facenet"

/-- C8: the page attempts a comparison exactly when all three uploaded
images (father, mother, child) are present and non-null. -/
theorem page_run_gate (o : Oracle) (imgF imgM imgC : Option ℕ) (dm mn : String) :
    (page_run o imgF imgM imgC dm mn).isSome
      = (imgF.isSome && imgM.isSome && imgC.isSome) := by
  rcases imgF with _ | f <;> rcases imgM with _ | m <;> rcases imgC with _ | c <;>
    simp [page_run]

/-- C9: every invocation of the verification primitive recorded by
`run_deepface` carries the fixed detector backend `"mtcnn"`, for every
oracle, image pair, model name and distance metric. -/
theorem verify_backend_mtcnn (o : Oracle) (i1 i2 : ℕ) (mn dm : String) :
    ((run_deepface o i1 i2 mn dm).calls.all
        fun call => call.detector_backend == "mtcnn") = true := by
  rw [run_deepface_calls_eq]
  unfold try_body
  split
  · rfl
  · split
    · rfl
    · rfl

/-- C10: when both verification results are present, `compare_image`
returns the pair (maternal distance, paternal distance), mother first; when
either result is absent it returns no pair at all. -/
theorem compare_image_return_order (o : Oracle) (f m c : ℕ) (dm mn : String) :
    (∀ p mr, (run_deepface o f c mn dm).ret = Except.ok (some p) →
       (run_deepface o m c mn dm).ret = Except.ok (some mr) →
       Except.map CompareOut.ret (compare_image o f m c dm mn)
         = Except.ok (some (mr.distance, p.distance))) ∧
    (∀ pr mrr, (run_deepface o f c mn dm).ret = Except.ok pr →
       (run_deepface o m c mn dm).ret = Except.ok mrr →
       pr = none ∨ mrr = none →
       Except.map CompareOut.ret (compare_image o f m c dm mn) = Except.ok none) := by
  constructor
  · intro p mr hp hm
    simp only [compare_image]
    rw [hp, hm]
    rfl
  · intro pr mrr hp hm hnone
    simp only [compare_image]
    rw [hp, hm]
    rcases hnone with h | h
    · subst h
      cases mrr with
      | none => rfl
      | some mv => rfl
    · subst h
      cases pr with
      | none => rfl
      | some pv => rfl

/-- C10 witness: on the happy-path oracle with paternal distance `1` and
maternal distance `2`, the returned pair is `(2, 1)` — mother first. -/
theorem compare_image_return_order_witness :
    Except.map CompareOut.ret
        (compare_image (okOracle { distance := 1 } { distance := 2 }) 0 1 2 "cosine" "Facenet")
      = Except.ok (some ((2 : ℚ), (1 : ℚ))) :=
  (compare_image_return_order (okOracle { distance := 1 } { distance := 2 })
      0 1 2 "cosine" "Facenet").1 { distance := 1 } { distance := 2 } rfl rfl
